import Mathlib

/-!
Verification development for the SIEM anomaly dashboard (src/dashboard.py).

The dashboard reads a CSV of scored anomaly events, derives a severity bucket
for each event from its VAE score, filters the events by time cutoff, score
range, severity set and label, and computes summary metrics over the filtered
view.  Scores and timestamps are modelled as rationals; a CSV cell that may
fail to parse is modelled as an Option.
-/

namespace Dashboard

/-- Severity buckets, in the order used by the dashboard legend. -/
inductive Severity where
  | Low
  | Medium
  | High
  | Critical
deriving DecidableEq, Repr

/-- Numeric rank of a severity bucket under the ordering
Low < Medium < High < Critical. -/
def sevRank : Severity → Nat
  | Severity.Low => 0
  | Severity.Medium => 1
  | Severity.High => 2
  | Severity.Critical => 3

/-- Severity classification of a VAE score, embedding
`pd.cut(df[VAE_Score], bins=[0, 310, 311, 312, inf], labels=[Low, Medium, High, Critical])`
(dashboard.py lines 66-71).  pandas `cut` uses right-closed intervals by
default, so the bins are `(0,310] -> Low`, `(310,311] -> Medium`,
`(311,312] -> High`, `(312,inf] -> Critical`; a score outside every bin
(in particular any score `<= 0`) gets no bucket (NaN), modelled as `none`. -/
def classify (s : ℚ) : Option Severity :=
  if 0 < s ∧ s ≤ 310 then some Severity.Low
  else if 310 < s ∧ s ≤ 311 then some Severity.Medium
  else if 311 < s ∧ s ≤ 312 then some Severity.High
  else if 312 < s then some Severity.Critical
  else none

/-- One fully parsed event row of the dataframe produced by `load_data`:
columns Timestamp, Sample_Index, VAE_Score, GNN_Label. -/
structure Event where
  timestamp : ℚ
  sample_index : Int
  vae_score : ℚ
  gnn_label : Int
deriving DecidableEq, Repr

/-- One raw CSV row before type coercion.  A `none` timestamp field stands for
a cell `pd.to_datetime` cannot parse; a `none` score field stands for a
non-numeric VAE Score cell (which makes `pd.cut` raise).  Sample index and
label are read as-is. -/
structure RawRow where
  timestamp_field : Option ℚ
  sample_index_field : Int
  score_field : Option ℚ
  label_field : Int
deriving DecidableEq, Repr

/-- Coerce one raw row into a typed event; an unparsable timestamp or a
non-numeric score makes the row (and hence the whole load) fail, mirroring
how `pd.to_datetime` / `pd.cut` raise on the whole column. -/
def parseRow (r : RawRow) : Except String Event :=
  match r.timestamp_field with
  | none => Except.error "unparsable timestamp"
  | some t =>
    match r.score_field with
    | none => Except.error "non-numeric score"
    | some sc => Except.ok ⟨t, r.sample_index_field, sc, r.label_field⟩

/-- Parse every row; the first failing row fails the whole table, mirroring
the column-wise coercions in `load_data` which raise on any bad cell. -/
def parseTable : List RawRow → Except String (List Event)
  | [] => Except.ok []
  | r :: rs =>
    match parseRow r with
    | Except.error e => Except.error e
    | Except.ok ev =>
      match parseTable rs with
      | Except.error e => Except.error e
      | Except.ok evs => Except.ok (ev :: evs)

/-- Insert an event into a list sorted by descending timestamp (stable). -/
def insertDesc (e : Event) : List Event → List Event
  | [] => [e]
  | f :: fs => if f.timestamp < e.timestamp then e :: f :: fs else f :: insertDesc e fs

/-- Sort events by descending timestamp, embedding
`df.sort_values(Timestamp, ascending=False)` (dashboard.py line 73). -/
def sortSnapshot (events : List Event) : List Event :=
  events.foldr insertDesc []

/-- The external CSV source: either the file is missing (`pd.read_csv`
raises FileNotFoundError) or it holds a list of raw rows. -/
inductive Source where
  | missing
  | present (rows : List RawRow)
deriving DecidableEq, Repr

/-- Read the raw rows of the source, embedding `pd.read_csv(CSV_PATH)`. -/
def readSource : Source → Except String (List RawRow)
  | Source.missing => Except.error "file not found"
  | Source.present rows => Except.ok rows

/-- The body of the `try` block of `load_data` (dashboard.py lines 52-73):
read the CSV, coerce every row, sort by descending timestamp. -/
def loadResult (src : Source) : Except String (List Event) :=
  match readSource src with
  | Except.error e => Except.error e
  | Except.ok rows =>
    match parseTable rows with
    | Except.error e => Except.error e
    | Except.ok events => Except.ok (sortSnapshot events)

/-- `load_data` (dashboard.py lines 49-77): any exception raised while
reading or parsing is caught (`except Exception`), an error message is
displayed, and an empty dataframe is returned. -/
def load_data (src : Source) : List Event :=
  match loadResult src with
  | Except.ok snap => snap
  | Except.error _ => []

/-- The label radio choice (dashboard.py lines 132-136):
All / Normal (0) / Anomaly (1). -/
inductive LabelChoice where
  | all
  | normal0
  | anomaly1
deriving DecidableEq, Repr

/-- The sidebar filter controls: time cutoff, inclusive score range,
selected severity levels, label choice. -/
structure FilterSpec where
  time_cutoff : ℚ
  min_score : ℚ
  max_score : ℚ
  severity_levels : List Severity
  label_choice : LabelChoice
deriving DecidableEq, Repr

/-- Severity-set membership test for one event, embedding
`df[Severity].isin(severity_filter)`: an event whose score got no bucket
(NaN severity) is never in the set. -/
def sevMatch (s : ℚ) (sevs : List Severity) : Bool :=
  match classify s with
  | some v => decide (v ∈ sevs)
  | none => false

/-- The combined boolean mask of dashboard.py lines 139-144:
timestamp at or after the cutoff, score within the inclusive range, and
severity in the selected set. -/
def baseMask (spec : FilterSpec) (e : Event) : Bool :=
  decide (spec.time_cutoff ≤ e.timestamp) &&
  decide (spec.min_score ≤ e.vae_score) &&
  decide (e.vae_score ≤ spec.max_score) &&
  sevMatch e.vae_score spec.severity_levels

/-- The label refinement of dashboard.py lines 146-149. -/
def labelMask (c : LabelChoice) (e : Event) : Bool :=
  match c with
  | LabelChoice.all => true
  | LabelChoice.normal0 => decide (e.gnn_label = 0)
  | LabelChoice.anomaly1 => decide (e.gnn_label = 1)

/-- The full filter pipeline of dashboard.py lines 139-149: apply the
combined mask, then the label refinement. -/
def filterSnapshot (df : List Event) (spec : FilterSpec) : List Event :=
  (df.filter (baseMask spec)).filter (labelMask spec.label_choice)

/-- The dashboard metrics row (dashboard.py lines 152-163). -/
structure MetricsSummary where
  total_count : Nat
  filtered_count : Nat
  mean_score : ℚ
  latest_record : Option Event
deriving DecidableEq, Repr

/-- Compute the metrics of dashboard.py lines 152-163: total alerts,
filtered alerts, average VAE score of the filtered view (0 when the filtered
view is empty), and the first row of the filtered view when non-empty. -/
def summarize (df filtered_df : List Event) : MetricsSummary :=
  { total_count := df.length
    filtered_count := filtered_df.length
    mean_score :=
      if filtered_df.isEmpty then 0
      else (filtered_df.map Event.vae_score).sum / (filtered_df.length : ℚ)
    latest_record := filtered_df.head? }

/-- The published view computed by one run of `main` (dashboard.py lines
85-90): the dataframe returned by `load_data`, shown as the no-data state
(`none`) when it is empty. -/
def mainView (src : Source) : Option (List Event) :=
  let df := load_data src
  if df.isEmpty then none else some df

/-- One refresh cycle as `main` performs it: the new published view is
recomputed from `load_data` alone; the previously published view is not an
input to the new one (dashboard.py lines 85-90 and 233-236). -/
def publishCycle (prev : Option (List Event)) (src : Source) : Option (List Event) :=
  mainView src

/-- A well-formed previously loaded event, used as concrete test data. -/
def evPrev : Event := ⟨1, 0, 311, 1⟩

/-- A raw table whose second row has a non-numeric VAE Score cell. -/
def badRows : List RawRow := [⟨some 2, 1, some 311, 1⟩, ⟨some 3, 2, none, 0⟩]

/-- The snapshot of the end-to-end scenario: seven anomalous events at the
scores listed in the spec, most recent first. -/
def snapshotC4 : List Event :=
  [⟨7, 0, 310.58, 1⟩, ⟨6, 1, 310.65, 1⟩, ⟨5, 2, 310.76, 1⟩, ⟨4, 3, 310.92, 1⟩,
   ⟨3, 4, 311.13, 1⟩, ⟨2, 5, 311.36, 1⟩, ⟨1, 6, 311.66, 1⟩]

/-- The filter of the end-to-end scenario: epoch-zero cutoff, score range
310 to 312, every severity level, anomalies only. -/
def specC4 : FilterSpec :=
  ⟨0, 310, 312, [Severity.Low, Severity.Medium, Severity.High, Severity.Critical],
   LabelChoice.anomaly1⟩

/-- A permissive filter spec selecting all four severity levels. -/
def specW : FilterSpec :=
  ⟨0, 0, 1000, [Severity.Low, Severity.Medium, Severity.High, Severity.Critical],
   LabelChoice.all⟩

/-- A narrow filter spec, strictly narrower than specW in every dimension. -/
def specNarrow : FilterSpec := ⟨5, 311, 311, [Severity.Medium], LabelChoice.anomaly1⟩

/-- A wide filter spec, at least as wide as specNarrow in every dimension. -/
def specWide : FilterSpec :=
  ⟨0, 310, 312, [Severity.Low, Severity.Medium, Severity.High, Severity.Critical],
   LabelChoice.all⟩

/-- An event whose VAE score is zero, hence outside every pd.cut bin. -/
def evZero : Event := ⟨5, 0, 0, 1⟩

/-- A filter spec selecting all four severity levels and a score range
containing zero. -/
def specAllSev : FilterSpec :=
  ⟨0, -10, 10, [Severity.Low, Severity.Medium, Severity.High, Severity.Critical],
   LabelChoice.all⟩

/-! ## Helper lemmas -/

/-- Bounds carried by a successful classification: the score is positive and
lies in the right-closed bin of its bucket. -/
theorem classify_eq_some (s : ℚ) (v : Severity) (h : classify s = some v) :
    0 < s ∧ (v = Severity.Low → s ≤ 310) ∧ (v = Severity.Medium → 310 < s ∧ s ≤ 311) ∧
    (v = Severity.High → 311 < s ∧ s ≤ 312) ∧ (v = Severity.Critical → 312 < s) := by
  unfold classify at h
  split_ifs at h with h1 h2 h3 h4
  · cases h
    exact ⟨h1.1, fun _ => h1.2, (fun hv => by cases hv), (fun hv => by cases hv),
      (fun hv => by cases hv)⟩
  · cases h
    exact ⟨by linarith [h2.1], (fun hv => by cases hv), fun _ => h2, (fun hv => by cases hv),
      (fun hv => by cases hv)⟩
  · cases h
    exact ⟨by linarith [h3.1], (fun hv => by cases hv), (fun hv => by cases hv), fun _ => h3,
      (fun hv => by cases hv)⟩
  · cases h
    exact ⟨by linarith [h4], (fun hv => by cases hv), (fun hv => by cases hv),
      (fun hv => by cases hv), fun _ => h4⟩

/-- The two-stage filter of the dashboard equals a single filter over the
conjunction of the combined mask and the label mask. -/
theorem filterSnapshot_eq_filter (df : List Event) (spec : FilterSpec) :
    filterSnapshot df spec =
      df.filter (fun e => baseMask spec e && labelMask spec.label_choice e) := by
  unfold filterSnapshot
  rw [List.filter_filter]
  apply List.filter_congr
  intro e _
  exact Bool.and_comm _ _

/-- A successfully parsed table has a numeric score cell in every row. -/
theorem parseTable_ok_scores (rows : List RawRow) (events : List Event)
    (h : parseTable rows = Except.ok events) :
    ∀ r ∈ rows, (r.score_field).isSome := by
  induction rows generalizing events with
  | nil => intro r hr; cases hr
  | cons r rs ih =>
    intro r' hr'
    unfold parseTable at h
    cases hp : parseRow r with
    | error e => rw [hp] at h; exact Except.noConfusion h
    | ok ev =>
      rw [hp] at h
      cases ht : parseTable rs with
      | error e => rw [ht] at h; exact Except.noConfusion h
      | ok evs =>
        rcases List.mem_cons.mp hr' with rfl | hmem
        · unfold parseRow at hp
          cases hts : r'.timestamp_field with
          | none => rw [hts] at hp; exact Except.noConfusion hp
          | some t =>
            rw [hts] at hp
            cases hsc : r'.score_field with
            | none => rw [hsc] at hp; exact Except.noConfusion hp
            | some sc => rfl
        · exact ih evs ht r' hmem

/-! ## Claim C1 -/

/-- Claim C1, counterexample: the claim says the bins are left-closed and
right-open with classify(310.0) = Medium and classify(312.0) = Critical, but
pandas cut uses right-closed intervals by default, so 310 falls in (0,310]
(Low, not Medium) and 312 falls in (311,312] (High, not Critical). -/
theorem classify_boundary_counterexample :
    classify 310 = some Severity.Low ∧ classify 310 ≠ some Severity.Medium ∧
    classify 312 = some Severity.High ∧ classify 312 ≠ some Severity.Critical ∧
    classify (309999/1000) = some Severity.Low := by
  refine ⟨by decide, by decide, by decide, by decide, by norm_num [classify]⟩

/-- Claim C1, amended: the severity bins are left-open and right-closed:
a positive score s is classified Low when s ≤ 310, Medium when
310 < s ≤ 311, High when 311 < s ≤ 312, and Critical when 312 < s; in
particular classify(310.0) = Low, classify(309.999) = Low and
classify(312.0) = High. -/
theorem classify_right_closed_bins (s : ℚ) (h : 0 < s) :
    classify s = some (if s ≤ 310 then Severity.Low
      else if s ≤ 311 then Severity.Medium
      else if s ≤ 312 then Severity.High
      else Severity.Critical) := by
  rcases le_or_lt s 310 with h1 | h1
  · rw [if_pos h1]
    unfold classify
    rw [if_pos ⟨h, h1⟩]
  · rw [if_neg (not_le.mpr h1)]
    rcases le_or_lt s 311 with h2 | h2
    · rw [if_pos h2]
      unfold classify
      rw [if_neg (by push_neg; intro _; linarith), if_pos ⟨h1, h2⟩]
    · rw [if_neg (not_le.mpr h2)]
      rcases le_or_lt s 312 with h3 | h3
      · rw [if_pos h3]
        unfold classify
        rw [if_neg (by push_neg; intro _; linarith),
          if_neg (by push_neg; intro _; linarith), if_pos ⟨h2, h3⟩]
      · rw [if_neg (not_le.mpr h3)]
        unfold classify
        rw [if_neg (by push_neg; intro _; linarith),
          if_neg (by push_neg; intro _; linarith),
          if_neg (by push_neg; intro _; linarith), if_pos h3]

/-- Claim C1, witness: the amended bin characterization evaluated at the
boundary score 310, which lands in the Low bucket. -/
theorem classify_right_closed_bins_witness :
    0 < (310 : ℚ) ∧ classify 310 = some Severity.Low := by
  refine ⟨by decide, ?_⟩
  rw [classify_right_closed_bins 310 (by decide)]
  decide

/-! ## Claim C2 -/

/-- Claim C2, counterexample: the claim says classify returns a Severity for
every score including scores ≤ 0, but a score of 0 (or any negative score)
lies outside every pd.cut bin and gets no severity at all. -/
theorem classify_nonpositive_counterexample :
    classify 0 = none ∧ classify (-5) = none := by
  exact ⟨by decide, by decide⟩

/-- Claim C2, amended: classify is a pure function that returns one of the
four Severity values exactly for scores strictly greater than 0; for any
score ≤ 0 it returns no severity (a missing value). -/
theorem classify_defined_iff_pos (s : ℚ) :
    (classify s).isSome = decide (0 < s) := by
  unfold classify
  split_ifs with h1 h2 h3 h4
  · simp only [Option.isSome_some]
    symm
    rw [decide_eq_true_eq]
    exact h1.1
  · simp only [Option.isSome_some]
    symm
    rw [decide_eq_true_eq]
    linarith [h2.1]
  · simp only [Option.isSome_some]
    symm
    rw [decide_eq_true_eq]
    linarith [h3.1]
  · simp only [Option.isSome_some]
    symm
    rw [decide_eq_true_eq]
    linarith [h4]
  · simp only [Option.isSome_none]
    symm
    rw [decide_eq_false_iff_not]
    intro hpos
    rcases le_or_lt s 310 with hc | hc
    · exact h1 ⟨hpos, hc⟩
    rcases le_or_lt s 311 with hc2 | hc2
    · exact h2 ⟨hc, hc2⟩
    rcases le_or_lt s 312 with hc3 | hc3
    · exact h3 ⟨hc2, hc3⟩
    · exact h4 hc3

/-! ## Claim C8 -/

/-- Claim C8: classify is monotone where it is defined: whenever two scores
both receive a bucket and s1 < s2, the bucket of s1 is at most the bucket of
s2 under the ordering Low < Medium < High < Critical (encoded by sevRank).
Determinism is definitional, classify being a pure function of the score. -/
theorem classify_monotone (s1 s2 : ℚ) (v1 v2 : Severity)
    (h1 : classify s1 = some v1) (h2 : classify s2 = some v2) (hlt : s1 < s2) :
    sevRank v1 ≤ sevRank v2 := by
  obtain ⟨hp1, hl1, hm1, hh1, hc1⟩ := classify_eq_some s1 v1 h1
  obtain ⟨hp2, hl2, hm2, hh2, hc2⟩ := classify_eq_some s2 v2 h2
  cases v1 <;> cases v2
  all_goals try decide
  · exact absurd hlt (by obtain ⟨a1, a2⟩ := hm1 rfl; have b := hl2 rfl; linarith)
  · exact absurd hlt (by obtain ⟨a1, a2⟩ := hh1 rfl; have b := hl2 rfl; linarith)
  · exact absurd hlt (by obtain ⟨a1, a2⟩ := hh1 rfl; have b := (hm2 rfl).2; linarith)
  · exact absurd hlt (by have a := hc1 rfl; have b := hl2 rfl; linarith)
  · exact absurd hlt (by have a := hc1 rfl; have b := (hm2 rfl).2; linarith)
  · exact absurd hlt (by have a := hc1 rfl; have b := (hh2 rfl).2; linarith)

/-- Claim C8, witness: the monotonicity theorem applied to the concrete
scores 100 (Low) and 400 (Critical). -/
theorem classify_monotone_witness :
    classify 100 = some Severity.Low ∧ classify 400 = some Severity.Critical ∧
    sevRank Severity.Low ≤ sevRank Severity.Critical :=
  ⟨by decide, by decide,
    classify_monotone 100 400 Severity.Low Severity.Critical (by decide) (by decide) (by decide)⟩

/-! ## Claim C9 -/

/-- Claim C9: an event whose score is ≤ 0 gets no severity bucket, so the
severity-set membership test rejects it and it never appears in any filtered
view, whatever the filter spec (in particular even when every severity level
is selected). -/
theorem nonpositive_score_never_filtered (df : List Event) (spec : FilterSpec) (e : Event)
    (h : e.vae_score ≤ 0) : e ∉ filterSnapshot df spec := by
  intro hmem
  rw [filterSnapshot_eq_filter, List.mem_filter] at hmem
  obtain ⟨-, hmask⟩ := hmem
  rw [Bool.and_eq_true] at hmask
  have hb := hmask.1
  unfold baseMask at hb
  rw [Bool.and_eq_true] at hb
  have hs := hb.2
  unfold sevMatch at hs
  cases hc : classify e.vae_score with
  | none => rw [hc] at hs; exact Bool.noConfusion hs
  | some v =>
    have hpos := (classify_eq_some _ v hc).1
    linarith

/-- Claim C9, witness: the zero-score event is excluded from the filtered
view even though the spec selects all four severity levels and its score and
timestamp are inside the spec ranges. -/
theorem nonpositive_score_never_filtered_witness :
    evZero.vae_score ≤ 0 ∧ evZero ∉ filterSnapshot [evZero] specAllSev :=
  ⟨by decide, nonpositive_score_never_filtered [evZero] specAllSev evZero (by decide)⟩

/-! ## Claim C10 -/

/-- Claim C10: load_data never propagates a failure to its caller: whenever
the read-and-parse pipeline fails (missing file, unparsable timestamp,
non-numeric score), load_data returns the empty snapshot, and whenever the
pipeline succeeds it returns its snapshot unchanged — so the caller can tell
failure apart only by emptiness, not by error kind. -/
theorem load_never_throws (src : Source) :
    (∀ err, loadResult src = Except.error err → load_data src = []) ∧
    (∀ snap, loadResult src = Except.ok snap → load_data src = snap) := by
  constructor
  · intro err h
    unfold load_data
    rw [h]
  · intro snap h
    unfold load_data
    rw [h]

/-- Claim C10, witness: loading from a missing file fails inside the
pipeline and load_data returns the empty snapshot. -/
theorem load_never_throws_witness :
    loadResult Source.missing = Except.error "file not found" ∧
    load_data Source.missing = [] :=
  ⟨rfl, (load_never_throws Source.missing).1 "file not found" rfl⟩

/-! ## Claim C3 -/

/-- Claim C3, counterexample: loading a table whose second row has a
non-numeric score does fail inside the pipeline, but load_data swallows the
failure and returns an empty snapshot, so the next render of main replaces
the previously published view (here holding one event) with the no-data
state: the prior Snapshot does not remain queryable. -/
theorem parse_failure_replaces_view_counterexample :
    loadResult (Source.present badRows) = Except.error "non-numeric score" ∧
    publishCycle (some [evPrev]) (Source.present badRows) = none :=
  ⟨rfl, rfl⟩

/-- Claim C3, amended: when a row contains a non-numeric score field the
whole load fails and the exception is caught inside load_data, which reports
a diagnostic and returns an empty snapshot; the published view of the next
cycle is then the no-data state, whatever view was published before — the
previous Snapshot is replaced, not preserved. -/
theorem parse_failure_yields_no_data (prev : Option (List Event)) (rows : List RawRow)
    (hbad : ∃ r ∈ rows, r.score_field = none) :
    publishCycle prev (Source.present rows) = none := by
  obtain ⟨r, hr, hnone⟩ := hbad
  cases h : parseTable rows with
  | ok events =>
    have hsome := parseTable_ok_scores rows events h r hr
    rw [hnone] at hsome
    exact Bool.noConfusion hsome
  | error e =>
    simp [publishCycle, mainView, load_data, loadResult, readSource, h]

/-- Claim C3, witness: the amended statement evaluated on the concrete bad
table, starting from a published view holding one event. -/
theorem parse_failure_yields_no_data_witness :
    (∃ r ∈ badRows, r.score_field = none) ∧
    publishCycle (some [evPrev]) (Source.present badRows) = none :=
  ⟨by decide, parse_failure_yields_no_data (some [evPrev]) badRows (by decide)⟩

/-! ## Claim C5 -/

/-- Claim C5: summarize reports the length of the full snapshot, the length
of the filtered view, the arithmetic mean of the filtered scores with an
explicit 0 on an empty filtered view, and the element at index 0 of the
filtered view as latest record, absent when the filtered view is empty. -/
theorem summarize_fields (df fdf : List Event) :
    (summarize df fdf).total_count = df.length ∧
    (summarize df fdf).filtered_count = fdf.length ∧
    (fdf = [] → (summarize df fdf).mean_score = 0 ∧ (summarize df fdf).latest_record = none) ∧
    (∀ e es, fdf = e :: es →
      (summarize df fdf).mean_score = (fdf.map Event.vae_score).sum / (fdf.length : ℚ) ∧
      (summarize df fdf).latest_record = some e) := by
  refine ⟨rfl, rfl, ?_, ?_⟩
  · rintro rfl
    exact ⟨rfl, rfl⟩
  · rintro e es rfl
    exact ⟨rfl, rfl⟩

/-- Claim C5, witness: the summarize contract evaluated on an empty filtered
view and on a singleton filtered view. -/
theorem summarize_fields_witness :
    (summarize [evPrev] []).mean_score = 0 ∧
    (summarize [evPrev] []).latest_record = none ∧
    (summarize [evPrev] [evPrev]).latest_record = some evPrev :=
  ⟨((summarize_fields [evPrev] []).2.2.1 rfl).1,
   ((summarize_fields [evPrev] []).2.2.1 rfl).2,
   ((summarize_fields [evPrev] [evPrev]).2.2.2 evPrev [] rfl).2⟩

/-! ## Claim C6 -/

/-- Claim C6: the filtered view keeps exactly the events satisfying the
conjunction of all predicates — not before the cutoff (equality kept), score
inside the inclusive range, derived severity a member of the severity set,
and the label predicate — and it is a sub-sequence of the snapshot, so the
snapshot's descending-timestamp order is preserved. -/
theorem filter_conjunction_order (df : List Event) (spec : FilterSpec) :
    (∀ e, e ∈ filterSnapshot df spec ↔
      e ∈ df ∧ ¬ e.timestamp < spec.time_cutoff ∧
      spec.min_score ≤ e.vae_score ∧ e.vae_score ≤ spec.max_score ∧
      (∃ v, classify e.vae_score = some v ∧ v ∈ spec.severity_levels) ∧
      labelMask spec.label_choice e = true) ∧
    List.Sublist (filterSnapshot df spec) df ∧
    (List.Pairwise (fun a b => b.timestamp ≤ a.timestamp) df →
      List.Pairwise (fun a b => b.timestamp ≤ a.timestamp) (filterSnapshot df spec)) := by
  have heq := filterSnapshot_eq_filter df spec
  have hsub : List.Sublist (filterSnapshot df spec) df := by
    rw [heq]
    exact List.filter_sublist df
  refine ⟨?_, hsub, ?_⟩
  · intro e
    rw [heq, List.mem_filter, Bool.and_eq_true]
    constructor
    · rintro ⟨hmem, hb, hl⟩
      unfold baseMask at hb
      rw [Bool.and_eq_true, Bool.and_eq_true, Bool.and_eq_true] at hb
      obtain ⟨⟨⟨ht, hmin⟩, hmax⟩, hsev⟩ := hb
      rw [decide_eq_true_eq] at ht hmin hmax
      refine ⟨hmem, not_lt.mpr ht, hmin, hmax, ?_, hl⟩
      unfold sevMatch at hsev
      cases hc : classify e.vae_score with
      | none => rw [hc] at hsev; exact Bool.noConfusion hsev
      | some v =>
        rw [hc] at hsev
        rw [decide_eq_true_eq] at hsev
        exact ⟨v, rfl, hsev⟩
    · rintro ⟨hmem, ht, hmin, hmax, ⟨v, hc, hv⟩, hl⟩
      refine ⟨hmem, ?_, hl⟩
      unfold baseMask
      rw [Bool.and_eq_true, Bool.and_eq_true, Bool.and_eq_true]
      refine ⟨⟨⟨?_, ?_⟩, ?_⟩, ?_⟩
      · rw [decide_eq_true_eq]
        exact not_lt.mp ht
      · rw [decide_eq_true_eq]
        exact hmin
      · rw [decide_eq_true_eq]
        exact hmax
      · unfold sevMatch
        rw [hc, decide_eq_true_eq]
        exact hv
  · intro hpair
    exact hpair.sublist hsub

/-- Claim C6, witness: order preservation evaluated on a concrete singleton
snapshot, which is trivially sorted by descending timestamp. -/
theorem filter_conjunction_order_witness :
    List.Pairwise (fun a b : Event => b.timestamp ≤ a.timestamp) [evPrev] ∧
    List.Pairwise (fun a b : Event => b.timestamp ≤ a.timestamp)
      (filterSnapshot [evPrev] specW) :=
  ⟨by simp, (filter_conjunction_order [evPrev] specW).2.2 (by simp)⟩

/-! ## Claim C7 -/

/-- Claim C7: widening the filter — moving the cutoff earlier, enlarging the
inclusive score range, enlarging the severity set, or weakening the label
predicate to All — never decreases the number of filtered events, because
every predicate of the conjunction is monotone in its spec field. -/
theorem filter_widening_mono (df : List Event) (f1 f2 : FilterSpec)
    (hcut : f2.time_cutoff ≤ f1.time_cutoff)
    (hmin : f2.min_score ≤ f1.min_score)
    (hmax : f1.max_score ≤ f2.max_score)
    (hsev : ∀ v ∈ f1.severity_levels, v ∈ f2.severity_levels)
    (hlab : f2.label_choice = LabelChoice.all ∨ f2.label_choice = f1.label_choice) :
    (filterSnapshot df f1).length ≤ (filterSnapshot df f2).length := by
  rw [filterSnapshot_eq_filter df f1, filterSnapshot_eq_filter df f2]
  apply List.Sublist.length_le
  apply List.monotone_filter_right
  intro e he
  rw [Bool.and_eq_true] at he
  obtain ⟨hb, hl⟩ := he
  rw [Bool.and_eq_true]
  constructor
  · unfold baseMask at hb ⊢
    rw [Bool.and_eq_true, Bool.and_eq_true, Bool.and_eq_true] at hb
    obtain ⟨⟨⟨ht, hmn⟩, hmx⟩, hs⟩ := hb
    rw [decide_eq_true_eq] at ht hmn hmx
    rw [Bool.and_eq_true, Bool.and_eq_true, Bool.and_eq_true]
    refine ⟨⟨⟨?_, ?_⟩, ?_⟩, ?_⟩
    · rw [decide_eq_true_eq]
      exact le_trans hcut ht
    · rw [decide_eq_true_eq]
      exact le_trans hmin hmn
    · rw [decide_eq_true_eq]
      exact le_trans hmx hmax
    · unfold sevMatch at hs ⊢
      cases hc : classify e.vae_score with
      | none =>
        rw [hc] at hs
        exact Bool.noConfusion hs
      | some v =>
        rw [hc] at hs
        exact decide_eq_true (hsev v (of_decide_eq_true hs))
  · rcases hlab with h | h
    · rw [h]
      rfl
    · rw [h]
      exact hl

/-- Claim C7, witness: the widening theorem applied to the concrete narrow
and wide specs over a singleton snapshot. -/
theorem filter_widening_mono_witness :
    specWide.time_cutoff ≤ specNarrow.time_cutoff ∧
    (filterSnapshot [evPrev] specNarrow).length ≤ (filterSnapshot [evPrev] specWide).length :=
  ⟨by decide,
   filter_widening_mono [evPrev] specNarrow specWide (by decide) (by decide) (by decide)
     (by decide) (by decide)⟩

/-! ## Claim C4 -/

/-- The end-to-end filter keeps all seven events: every score lies in the
inclusive range 310 to 312, every derived severity (Medium or High) is in the
selected set, every label is 1, and every timestamp is at or after 0. -/
theorem filterC4 : filterSnapshot snapshotC4 specC4 = snapshotC4 := by
  norm_num [filterSnapshot, baseMask, labelMask, sevMatch, classify, snapshotC4, specC4,
    List.filter]

/-- Claim C4, counterexample: the end-to-end scenario does return all 7
events, but the mean of the seven scores is 2177.06 / 7 = 311.00857…, which
differs from the claimed 310.99 by 13/700 ≈ 0.0186 > 0.01. -/
theorem end_to_end_mean_counterexample :
    (summarize snapshotC4 (filterSnapshot snapshotC4 specC4)).filtered_count = 7 ∧
    1/100 < |(summarize snapshotC4 (filterSnapshot snapshotC4 specC4)).mean_score - 310.99| := by
  rw [filterC4]
  constructor
  · rfl
  · norm_num [summarize, snapshotC4]
    rw [abs_of_pos] <;> norm_num

/-- Claim C4, amended: the end-to-end scenario returns all 7 events with
filtered_count = 7, and the mean score is within 0.01 of 311.01 (its exact
value is 2177.06 / 7). -/
theorem end_to_end_scenario :
    filterSnapshot snapshotC4 specC4 = snapshotC4 ∧
    (summarize snapshotC4 (filterSnapshot snapshotC4 specC4)).filtered_count = 7 ∧
    |(summarize snapshotC4 (filterSnapshot snapshotC4 specC4)).mean_score - 311.01| ≤ 1/100 := by
  refine ⟨filterC4, ?_, ?_⟩
  · rw [filterC4]
    rfl
  · rw [filterC4]
    norm_num [summarize, snapshotC4]
    rw [abs_of_pos] <;> norm_num

end Dashboard
